import Mathlib

/-!
Shallow embedding of the network capture-and-query engine of this repository:
the request store (`requestStorage.js`), its query pipeline and usage report,
the page-tracker capture pipeline (`tools.js` / `pageTracker`), and the
context lifecycle with global limit configuration (`state.js`).

Modelling conventions:
* JavaScript objects are Lean structures; a field holding `null`/`undefined`
  is `none` (the two are conflated exactly where the source only tests them
  by truthiness or `typeof`, which cannot tell them apart).
* JS `Map`s are association lists kept in insertion order, with `Map.set`
  replacing an existing key in place and appending a fresh key at the end.
* JS numbers used as byte counts and timestamps are `Nat`/`Int`;
  configuration inputs (arbitrary finite doubles) are `Rat`.
* String length and `slice` count Lean characters where the source counts
  UTF-16 code units; `Buffer.byteLength` counts UTF-8 bytes in both.
-/

namespace NetMon

/-- UTF-8 byte length of a string; models Node's `Buffer.byteLength(s)`. -/
def byteLength (s : String) : Nat :=
  s.data.foldl (fun n c => n + c.utf8Size) 0

/-- `record.body ? Buffer.byteLength(record.body) : 0` from `saveRequest` /
`updateRequest`.  An empty string is falsy in the source and takes the `0`
branch, which coincides with `byteLength ""`, so the truthiness test
collapses to the `Option` match. -/
def jsBodyBytes : Option String → Nat
  | some s => byteLength s
  | none => 0

/-- Header collections (plain JS objects of key/value pairs). -/
def Headers := List (String × String)
deriving DecidableEq

/-- The normalized timing structure built by `safeTiming` in the tracker.
Millisecond offsets are modelled as integers. -/
structure Timing where
  startTime : Int
  domainLookup : Option Int
  connectStart : Option Int
  connectEnd : Option Int
  requestStart : Option Int
  responseStart : Option Int
  responseEnd : Option Int
  duration : Option Int
deriving DecidableEq

/-- One Traffic Record as stored by `RequestStorage`.  Boolean flags model
the truthiness of the stored value (absent = falsy = `false`); byte-count
fields are `some n` exactly when the stored value has JS type `number`. -/
structure Record where
  id : String
  timestamp : Nat
  pageId : Option String
  pageUrl : Option String
  pageTitle : Option String
  url : Option String
  method : Option String
  resourceType : Option String
  isNavigationRequest : Bool
  frameUrl : Option String
  requestHeaders : Option Headers
  requestBody : Option String
  requestBodyTruncated : Bool
  requestBodyBytes : Option Nat
  requestBodySize : Option Nat
  status : Option Int
  statusText : Option String
  responseHeaders : Option Headers
  responseBody : Option String
  responseBodyTruncated : Bool
  responseBodyError : Option String
  responseBodyBytes : Option Nat
  responseBodySize : Option Nat
  contentType : Option String
  timing : Option Timing
  durationMs : Option Int
  error : Option String
deriving DecidableEq

/-- The state of one `RequestStorage` instance. -/
structure RequestStorage where
  requests : List Record
  requestCounter : Nat
  activePageMonitors : List (String × String)
deriving DecidableEq

/-- `new RequestStorage()`. -/
def emptyStorage : RequestStorage :=
  { requests := [], requestCounter := 0, activePageMonitors := [] }

/-- The fresh identifier string: `req-` + counter value. -/
def mkRequestId (n : Nat) : String := "req-" ++ toString n

/-- `this.requests.set(id, record)`: replace an existing key in place,
append a new key at the end. -/
def setRecord (rs : List Record) (r : Record) : List Record :=
  if rs.any (fun x => x.id = r.id) then
    rs.map (fun x => if x.id = r.id then r else x)
  else rs ++ [r]

/-- `this.requests.get(id) ?? null`. -/
def findRecord (rs : List Record) (i : String) : Option Record :=
  rs.find? (fun x => x.id = i)

/-- The argument object of `saveRequest`.  Every field is optional; `id` and
`timestamp` are included because `{ id, timestamp, ...data }` lets a spread
field override the fresh values.  `null` and absent are conflated: inside
`saveRequest` they are only distinguished by truthiness / `typeof`, which
agree on both. -/
structure SaveData where
  id : Option String := none
  timestamp : Option Nat := none
  pageId : Option String := none
  pageUrl : Option String := none
  pageTitle : Option String := none
  url : Option String := none
  method : Option String := none
  resourceType : Option String := none
  isNavigationRequest : Option Bool := none
  frameUrl : Option String := none
  requestHeaders : Option Headers := none
  requestBody : Option String := none
  requestBodyTruncated : Option Bool := none
  requestBodyBytes : Option Nat := none
  requestBodySize : Option Nat := none
  status : Option Int := none
  statusText : Option String := none
  responseHeaders : Option Headers := none
  responseBody : Option String := none
  responseBodyTruncated : Option Bool := none
  responseBodyError : Option String := none
  responseBodyBytes : Option Nat := none
  responseBodySize : Option Nat := none
  contentType : Option String := none
  timing : Option Timing := none
  durationMs : Option Int := none
  error : Option String := none
deriving DecidableEq

/-- `RequestStorage.saveRequest(data)`: assigns `req-${++counter}` and the
current time (both overridable by the data spread), then derives the four
byte-count fields when they are not already numeric, in source order. -/
def saveRequest (now : Nat) (data : SaveData) (s : RequestStorage) :
    Record × RequestStorage :=
  let n := s.requestCounter + 1
  let r0 : Record := {
    id := data.id.getD (mkRequestId n)
    timestamp := data.timestamp.getD now
    pageId := data.pageId
    pageUrl := data.pageUrl
    pageTitle := data.pageTitle
    url := data.url
    method := data.method
    resourceType := data.resourceType
    isNavigationRequest := data.isNavigationRequest.getD false
    frameUrl := data.frameUrl
    requestHeaders := data.requestHeaders
    requestBody := data.requestBody
    requestBodyTruncated := data.requestBodyTruncated.getD false
    requestBodyBytes := data.requestBodyBytes
    requestBodySize := data.requestBodySize
    status := data.status
    statusText := data.statusText
    responseHeaders := data.responseHeaders
    responseBody := data.responseBody
    responseBodyTruncated := data.responseBodyTruncated.getD false
    responseBodyError := data.responseBodyError
    responseBodyBytes := data.responseBodyBytes
    responseBodySize := data.responseBodySize
    contentType := data.contentType
    timing := data.timing
    durationMs := data.durationMs
    error := data.error }
  let r1 := if r0.requestBodyBytes.isSome then r0
            else { r0 with requestBodyBytes := some (jsBodyBytes r0.requestBody) }
  let r2 := if r1.requestBodySize.isSome then r1
            else { r1 with requestBodySize := r1.requestBodyBytes }
  let r3 := if r2.responseBodyBytes.isSome then r2
            else { r2 with responseBodyBytes := some (jsBodyBytes r2.responseBody) }
  let r4 := if r3.responseBodySize.isSome then r3
            else { r3 with responseBodySize := r3.responseBodyBytes }
  (r4, { s with requests := setRecord s.requests r4, requestCounter := n })

/-- The argument object of `updateRequest`.  `some none` is an explicit
`null` (the key is present, so `patch.x !== undefined` holds); `none` is an
absent key.  Restricted to the record fields the repository ever patches
(the response patch of `_onResponse`, the failure patch of
`_onRequestFailed`) plus the body/byte fields the derivation logic reads. -/
structure Patch where
  status : Option (Option Int) := none
  statusText : Option (Option String) := none
  responseHeaders : Option (Option Headers) := none
  responseBody : Option (Option String) := none
  responseBodyTruncated : Option Bool := none
  responseBodyError : Option (Option String) := none
  responseBodyBytes : Option (Option Nat) := none
  responseBodySize : Option (Option Nat) := none
  requestBody : Option (Option String) := none
  requestBodyBytes : Option (Option Nat) := none
  requestBodySize : Option (Option Nat) := none
  contentType : Option (Option String) := none
  timing : Option (Option Timing) := none
  durationMs : Option (Option Int) := none
  error : Option (Option String) := none
deriving DecidableEq

/-- `Object.assign(existing, patch)`: a key present in the patch overwrites
the field; an absent key leaves it alone. -/
def applyPatch (r : Record) (p : Patch) : Record := {
  r with
  status := p.status.getD r.status
  statusText := p.statusText.getD r.statusText
  responseHeaders := p.responseHeaders.getD r.responseHeaders
  responseBody := p.responseBody.getD r.responseBody
  responseBodyTruncated := p.responseBodyTruncated.getD r.responseBodyTruncated
  responseBodyError := p.responseBodyError.getD r.responseBodyError
  responseBodyBytes := p.responseBodyBytes.getD r.responseBodyBytes
  responseBodySize := p.responseBodySize.getD r.responseBodySize
  requestBody := p.requestBody.getD r.requestBody
  requestBodyBytes := p.requestBodyBytes.getD r.requestBodyBytes
  requestBodySize := p.requestBodySize.getD r.requestBodySize
  contentType := p.contentType.getD r.contentType
  timing := p.timing.getD r.timing
  durationMs := p.durationMs.getD r.durationMs
  error := p.error.getD r.error }

/-- The in-place update performed by `updateRequest` on a found record:
`Object.assign` followed by the four conditional byte-field derivations,
each reading the record as mutated so far. -/
def updateRecord (e0 : Record) (p : Patch) : Record :=
  let e := applyPatch e0 p
  let e := if p.responseBody.isSome && e.responseBodyBytes.isNone then
             { e with responseBodyBytes := some (jsBodyBytes e.responseBody) }
           else e
  let e := if p.responseBodySize.isSome && e.responseBodySize.isNone then
             { e with responseBodySize := p.responseBodySize.getD none }
           else e
  let e := if p.requestBody.isSome && e.requestBodyBytes.isNone then
             { e with requestBodyBytes := some (jsBodyBytes e.requestBody) }
           else e
  let e := if p.requestBodySize.isSome && e.requestBodySize.isNone then
             { e with requestBodySize := p.requestBodySize.getD none }
           else e
  e

/-- `RequestStorage.updateRequest(id, patch)`: `null` (here `none`) when the
identifier is unknown, otherwise the updated record, updated in place. -/
def updateRequest (i : String) (p : Patch) (s : RequestStorage) :
    Option Record × RequestStorage :=
  match findRecord s.requests i with
  | none => (none, s)
  | some e =>
    let e' := updateRecord e p
    (some e', { s with requests := s.requests.map (fun x => if x.id = i then e' else x) })

/-- `Map.set` on the page-monitor registry. -/
def assocSet (m : List (String × String)) (k v : String) : List (String × String) :=
  if m.any (fun kv => kv.1 = k) then m.map (fun kv => if kv.1 = k then (k, v) else kv)
  else m ++ [(k, v)]

/-- `RequestStorage.registerPageMonitor(pageId, monitorId)`. -/
def registerPageMonitor (s : RequestStorage) (pageId monitorId : String) :
    RequestStorage :=
  { s with activePageMonitors := assocSet s.activePageMonitors pageId monitorId }

/-- `RequestStorage.unregisterPageMonitor(pageId)`. -/
def unregisterPageMonitor (s : RequestStorage) (pageId : String) : RequestStorage :=
  { s with activePageMonitors := s.activePageMonitors.filter (fun kv => kv.1 != pageId) }

/-- The object returned by `RequestStorage.getUsage()`. -/
structure Usage where
  totalRequests : Nat
  requestBytes : Nat
  requestOriginalBytes : Nat
  requestTruncated : Nat
  responseBytes : Nat
  responseOriginalBytes : Nat
  responseTruncated : Nat
  estimatedMemoryBytes : Nat
deriving DecidableEq

/-- `entry.requestBodyBytes || 0` (a non-numeric value counts as 0). -/
def reqSaved (e : Record) : Nat := e.requestBodyBytes.getD 0

/-- `entry.requestBodySize ?? reqSaved`. -/
def reqOriginal (e : Record) : Nat := e.requestBodySize.getD (reqSaved e)

/-- `entry.responseBodyBytes || 0`. -/
def resSaved (e : Record) : Nat := e.responseBodyBytes.getD 0

/-- `entry.responseBodySize ?? resSaved`. -/
def resOriginal (e : Record) : Nat := e.responseBodySize.getD (resSaved e)

/-- `RequestStorage.getUsage()`: the accumulation loop over all records,
written as per-field sums over the record list. -/
def getUsage (s : RequestStorage) : Usage := {
  totalRequests := s.requests.length
  requestBytes := (s.requests.map reqSaved).sum
  requestOriginalBytes := (s.requests.map reqOriginal).sum
  requestTruncated := (s.requests.filter (fun e => e.requestBodyTruncated)).length
  responseBytes := (s.requests.map resSaved).sum
  responseOriginalBytes := (s.requests.map resOriginal).sum
  responseTruncated := (s.requests.filter (fun e => e.responseBodyTruncated)).length
  estimatedMemoryBytes := (s.requests.map reqSaved).sum + (s.requests.map resSaved).sum }

/-! ### The query pipeline of `queryRequests` -/

/-- Truthiness of an optional string filter value (`if (pageId) ...`):
absent, `null` and the empty string are falsy. -/
def strTruthy : Option String → Bool
  | some s => s != ""
  | none => false

/-- The string coercion JS applies when a possibly-`undefined` value is fed
to `RegExp.test`. -/
def jsToStr : Option String → String
  | some s => s
  | none => "undefined"

/-- Lowercasing used to model the `i` regular-expression flag (ASCII simple
case folding; the source uses the host regex engine's case folding). -/
def jsToLower (s : String) : String := String.mk (s.data.map Char.toLower)

/-- `(entry.method || "").toUpperCase()` (ASCII case folding). -/
def jsToUpper (s : String) : String := String.mk (s.data.map Char.toUpper)

/-- JS line terminators, which `.` in a regular expression does not match. -/
def jsLineTerm (c : Char) : Bool :=
  c = '\n' || c = '\r' || c = Char.ofNat 0x2028 || c = Char.ofNat 0x2029

/-- Split a pattern at every `*`, the only character `makeWildcardRegExp`
turns into a wildcard; all remaining characters are literals.  (Scope note:
the escape list `[.+^${...}()|[]\\]` of the source misses `?`, so a pattern
containing `?` builds a regex where `?` keeps its quantifier meaning; such
patterns are outside this model, and no theorem below uses one.) -/
def splitOnStar : List Char → List (List Char)
  | [] => [[]]
  | c :: rest =>
    if c = '*' then [] :: splitOnStar rest
    else match splitOnStar rest with
      | [] => [[c]]
      | p :: ps => (c :: p) :: ps

/-- Whether `p` is a prefix of `t` (literal segment matched at the current
position). -/
def startsWithL : List Char → List Char → Bool
  | [], _ => true
  | _ :: _, [] => false
  | p :: ps, t :: ts => p = t && startsWithL ps ts

/-- Scan forward for the first position where the literal segment `p`
matches, skipping only characters allowed in the gap, and return the text
after the matched segment. -/
def findFrom (gapOk : Char → Bool) (p : List Char) : List Char → Option (List Char)
  | [] => if p.isEmpty then some [] else none
  | c :: rest =>
    if startsWithL p (c :: rest) then some ((c :: rest).drop p.length)
    else if gapOk c then findFrom gapOk p rest
    else none

/-- Match the remaining literal segments in order, each separated from the
previous one by a `.*` gap (any characters except line terminators). -/
def matchTail : List (List Char) → List Char → Bool
  | [], _ => true
  | p :: ps, t =>
    match findFrom (fun c => !jsLineTerm c) p t with
    | none => false
    | some rest => matchTail ps rest

/-- `makeWildcardRegExp(pattern).test(url)`: the pattern's literal segments
(split at `*`) must occur in the url in order, separated by `.*` gaps; the
search is unanchored (`test` scans every start position), and the `i` flag
makes it case-insensitive. -/
def wildcardTest (pattern url : String) : Bool :=
  match splitOnStar (jsToLower pattern).data with
  | [] => true
  | p :: ps =>
    match findFrom (fun _ => true) p (jsToLower url).data with
    | none => false
    | some rest => matchTail ps rest

/-- The raw `since` filter value: a JS number or a string. -/
inductive SinceVal where
  | num (n : Int)
  | str (s : String)
deriving DecidableEq

/-- Truthiness of the raw `since` value (`if (since)`): `0` and the empty
string are falsy. -/
def sinceTruthy : SinceVal → Bool
  | .num n => n != 0
  | .str s => s != ""

/-- `normalizeTimestamp(value)`: a number passes through; a string goes
through the host runtime's `new Date(value).getTime()`, modelled by the
explicit parameter `parseDate` (`none` = `NaN`, i.e. unparseable). -/
def normalizeTimestamp (parseDate : String → Option Int) : SinceVal → Option Int
  | .num n => some n
  | .str s => parseDate s

/-- The filter object accepted by `queryRequests`. -/
structure QueryFilters where
  pageId : Option String := none
  urlPattern : Option String := none
  method : Option String := none
  status : Option Int := none
  resourceType : Option String := none
  since : Option SinceVal := none
  search : Option String := none
  limit : Option Int := none
deriving DecidableEq

/-- The successive `results = results.filter(...)` stages of
`queryRequests`, in source order.  `searchPred` models
`makeSearchRegExp(query).test` (the host regex engine; no claim below
exercises the `search` filter). -/
def applyFilters (searchPred : String → String → Bool)
    (parseDate : String → Option Int) (f : QueryFilters)
    (rs : List Record) : List Record :=
  let r1 := if strTruthy f.pageId then rs.filter (fun e => e.pageId == f.pageId) else rs
  let r2 := if strTruthy f.urlPattern then
      r1.filter (fun e => wildcardTest (f.urlPattern.getD "") (jsToStr e.url))
    else r1
  let r3 := if strTruthy f.method then
      r2.filter (fun e => jsToUpper (e.method.getD "") == jsToUpper (f.method.getD ""))
    else r2
  let r4 := match f.status with
    | some st => r3.filter (fun e => e.status == some st)
    | none => r3
  let r5 := if strTruthy f.resourceType then
      r4.filter (fun e => e.resourceType == f.resourceType)
    else r4
  let r6 := match f.since with
    | some sv =>
      if sinceTruthy sv then
        match normalizeTimestamp parseDate sv with
        | some t => if t != 0 then r5.filter (fun e => decide (t ≤ (e.timestamp : Int))) else r5
        | none => r5
      else r5
    | none => r5
  let r7 := if strTruthy f.search then
      r6.filter (fun e =>
        searchPred (f.search.getD "") (jsToStr e.url) ||
        (e.requestBody.getD "" != "" && searchPred (f.search.getD "") (e.requestBody.getD "")) ||
        (e.responseBody.getD "" != "" && searchPred (f.search.getD "") (e.responseBody.getD "")))
    else r6
  r7

/-- `results.sort((a, b) => b.timestamp - a.timestamp)`: a reordering that
is sorted by the comparator (descending timestamp); the source guarantees
no particular order among ties, modelled here as an insertion sort. -/
def sortByTimestampDesc (rs : List Record) : List Record :=
  rs.insertionSort (fun a b => b.timestamp ≤ a.timestamp)

/-- The `{ total, results }` object returned by `queryRequests`. -/
structure QueryResult where
  total : Nat
  results : List Record
deriving DecidableEq

/-- `RequestStorage.queryRequests(filters)`.  The final
`limited.map((entry) => ({ ...entry }))` copies each selected record into a
fresh object; on record values the copy is the identity (the aliasing of
nested structures it leaves behind is modelled in the object-heap section
below). -/
def queryRequests (searchPred : String → String → Bool)
    (parseDate : String → Option Int) (f : QueryFilters)
    (s : RequestStorage) : QueryResult :=
  let results := sortByTimestampDesc (applyFilters searchPred parseDate f s.requests)
  let total := results.length
  let limited := match f.limit with
    | some l => if 0 < l then results.take l.toNat else results
    | none => results
  { total := total, results := limited }

/-! ### Limits configuration and context lifecycle (`state.js`) -/

/-- The two global truncation ceilings (`currentLimits`), in bytes.
Modelled as integers so that positivity is a meaningful property. -/
structure Limits where
  maxRequestBodyBytes : Int
  maxResponseBodyBytes : Int
deriving DecidableEq

/-- `const KB = 1024`. -/
def KB : Int := 1024

/-- `DEFAULT_LIMITS`: 32 KiB request bodies, 64 KiB response bodies. -/
def DEFAULT_LIMITS : Limits :=
  { maxRequestBodyBytes := 32 * KB, maxResponseBodyBytes := 64 * KB }

/-- The result of JS `Number(value)` on a configuration input: a finite
double (modelled as a rational) or anything failing `Number.isFinite`
(NaN and the infinities). -/
inductive JsNumber where
  | fin (q : Rat)
  | nonFinite
deriving DecidableEq

/-- JS `Math.round(q)` for finite `q`: the floor of `q + 1/2`. -/
def mathRound (q : Rat) : Int := (q + 1/2).floor

/-- `parseLimitOption(value)`: `undefined` (here `none`) for `null`,
`undefined`, non-finite or non-positive values, otherwise the value rounded
to the nearest integer. -/
def parseLimitOption : Option JsNumber → Option Int
  | none => none
  | some JsNumber.nonFinite => none
  | some (JsNumber.fin q) => if q ≤ 0 then none else some (mathRound q)

/-- The options object of `configureNetworkLimits`; `none` is an absent or
`undefined` key (an explicit `null` is likewise dropped by
`parseLimitOption` and is folded into `none`). -/
structure ConfigureOptions where
  maxRequestBodyKB : Option JsNumber := none
  maxResponseBodyKB : Option JsNumber := none
deriving DecidableEq

/-- `configureNetworkLimits(options)` as a function on the current limits:
each override that parses is converted from kilobytes to bytes, every other
field keeps its previous value. -/
def configureNetworkLimits (o : ConfigureOptions) (cur : Limits) : Limits := {
  maxRequestBodyBytes := match parseLimitOption o.maxRequestBodyKB with
    | some k => k * KB
    | none => cur.maxRequestBodyBytes
  maxResponseBodyBytes := match parseLimitOption o.maxResponseBodyKB with
    | some k => k * KB
    | none => cur.maxResponseBodyBytes }

/-- Generic JS `Map.get` on an association list. -/
def alistGet {α β : Type} [DecidableEq α] (m : List (α × β)) (k : α) : Option β :=
  (m.find? (fun kv => kv.1 = k)).map (fun kv => kv.2)

/-- Generic JS `Map.set`: replace in place or append. -/
def alistSet {α β : Type} [DecidableEq α] (m : List (α × β)) (k : α) (v : β) :
    List (α × β) :=
  if m.any (fun kv => kv.1 = k) then m.map (fun kv => if kv.1 = k then (k, v) else kv)
  else m ++ [(k, v)]

/-- Generic JS `Map.delete`. -/
def alistRemove {α β : Type} [DecidableEq α] (m : List (α × β)) (k : α) :
    List (α × β) :=
  m.filter (fun kv => decide (kv.1 ≠ k))

/-- Modelled from the spec: the tracker revision paired with the current
`state.js` is not among the captured sources (only an earlier tracker
revision and the caller `attachPage`, which passes
`limits: { ...currentLimits }`, are).  Per the spec, a tracker captures the
configured limits by value at construction and uses them afterwards as its
truncation ceilings; the remaining fields follow the captured revision. -/
structure PageTracker where
  pageId : String
  monitorId : String
  maxRequestBodyBytes : Int
  maxResponseBodyBytes : Int
  disposed : Bool
deriving DecidableEq

/-- The three page events a tracker subscribes to. -/
inductive PageEvent where
  | request
  | response
  | requestfailed
deriving DecidableEq

/-- One listener registration `page.on(event, handler)`; the handler
functions are identified by the owning tracker's monitor identifier.
Pages are identified by object identity, modelled as a number. -/
structure Sub where
  page : Nat
  monitorId : String
  event : PageEvent
deriving DecidableEq

/-- The per-context state held in the `contextState` weak map. -/
structure CtxState where
  storage : RequestStorage
  trackers : List (Nat × PageTracker)
deriving DecidableEq

/-- The module-level state of `state.js`, together with the listener lists
of the external page objects. -/
structure NetState where
  contexts : List (Nat × CtxState)
  pageCounter : Nat
  trackerCounter : Nat
  currentLimits : Limits
  subs : List Sub
deriving DecidableEq

/-- The module state at load time. -/
def initialNetState : NetState :=
  { contexts := [], pageCounter := 0, trackerCounter := 0,
    currentLimits := DEFAULT_LIMITS, subs := [] }

/-- `ensureContextState(context)`: the existing state or a fresh one. -/
def ensureCtxState (st : NetState) (ctx : Nat) : CtxState :=
  (alistGet st.contexts ctx).getD { storage := emptyStorage, trackers := [] }

/-- `attachPage(context, page)`: returns the existing tracker unchanged if
the page is already tracked; otherwise constructs a tracker with a fresh
page identifier, capturing `{ ...currentLimits }` by value.  Tracker
construction also registers the page monitor and subscribes the three page
events, as in the tracker constructor. -/
def attachPage (st : NetState) (ctx page : Nat) : PageTracker × NetState :=
  let cs := ensureCtxState st ctx
  match alistGet cs.trackers page with
  | some t => (t, { st with contexts := alistSet st.contexts ctx cs })
  | none =>
    let pid := "page-" ++ toString (st.pageCounter + 1)
    let tc := st.trackerCounter + 1
    let t : PageTracker := {
      pageId := pid
      monitorId := "monitor-" ++ toString tc
      maxRequestBodyBytes := st.currentLimits.maxRequestBodyBytes
      maxResponseBodyBytes := st.currentLimits.maxResponseBodyBytes
      disposed := false }
    let cs' : CtxState := {
      storage := registerPageMonitor cs.storage pid t.monitorId
      trackers := alistSet cs.trackers page t }
    (t, { contexts := alistSet st.contexts ctx cs'
          pageCounter := st.pageCounter + 1
          trackerCounter := tc
          currentLimits := st.currentLimits
          subs := st.subs ++
            [{ page := page, monitorId := t.monitorId, event := PageEvent.request },
             { page := page, monitorId := t.monitorId, event := PageEvent.response },
             { page := page, monitorId := t.monitorId, event := PageEvent.requestfailed }] })

/-- `PageTracker.dispose()` acting on the tracker, its context's storage
and the page listener registrations: a no-op when already disposed,
otherwise it marks the tracker disposed, removes its three listeners and
unregisters its page monitor. -/
def disposeTracker (t : PageTracker) (storage : RequestStorage) (subs : List Sub) :
    PageTracker × RequestStorage × List Sub :=
  if t.disposed then (t, storage, subs)
  else ({ t with disposed := true },
        unregisterPageMonitor storage t.pageId,
        subs.filter (fun sb => sb.monitorId != t.monitorId))

/-- `detachPage(context, page)`: disposes and removes the page's tracker;
a no-op when the context or the page is unknown. -/
def detachPage (st : NetState) (ctx page : Nat) : NetState :=
  match alistGet st.contexts ctx with
  | none => st
  | some cs =>
    match alistGet cs.trackers page with
    | none => st
    | some t =>
      let d := disposeTracker t cs.storage st.subs
      { st with
        contexts := alistSet st.contexts ctx
          { storage := d.2.1, trackers := alistRemove cs.trackers page }
        subs := d.2.2 }

/-- The module-level assignment `currentLimits = next` performed by
`configureNetworkLimits`, as a step on the module state. -/
def applyConfigure (o : ConfigureOptions) (st : NetState) : NetState :=
  { st with currentLimits := configureNetworkLimits o st.currentLimits }

/-- The tracker stored for a page, if any. -/
def lookupTracker (st : NetState) (ctx page : Nat) : Option PageTracker :=
  (alistGet st.contexts ctx).bind (fun cs => alistGet cs.trackers page)

/-! ### The capture pipeline (`PageTracker` event handlers) -/

/-- `safeTruncate(producer, maxLength)` from the tracker, applied to the
value the producer returned (a throwing producer yields `(null, false)` and
is outside this model): a falsy or non-string value passes through with the
flag clear; a string longer than the limit is cut to its first `maxLength`
units with the flag set. -/
def safeTruncate (value : Option String) (maxLength : Nat) : Option String × Bool :=
  match value with
  | none => (none, false)
  | some s =>
    if s.length = 0 then (some s, false)
    else if maxLength < s.length then (some (String.mk (s.data.take maxLength)), true)
    else (some s, false)

/-- Modelled from the spec: the missing current tracker truncates request
bodies with its captured request-body ceiling, mirroring the captured
revision's `safeTruncate(() => request.postData(), this.maxPostDataLength)`. -/
def trackerTruncRequestBody (t : PageTracker) (body : Option String) :
    Option String × Bool :=
  safeTruncate body t.maxRequestBodyBytes.toNat

/-- Modelled from the spec: the missing current tracker truncates response
bodies with its captured response-body ceiling, mirroring the captured
revision's `_readResponseBody` cut at `this.maxBodyLength`. -/
def trackerTruncResponseBody (t : PageTracker) (body : Option String) :
    Option String × Bool :=
  safeTruncate body t.maxResponseBodyBytes.toNat

/-- The argument object `_onRequest` passes to `saveRequest` (tracker in
`tools.js`): request facet from the live request, response facet
initialised to `null`s, truncated body and flag from `safeTruncate`, and no
byte-count fields. -/
def onRequestSaveData (pageId pageUrl pageTitle url method resourceType : String)
    (isNav : Bool) (frameUrl : Option String) (headers : Option Headers)
    (postData : Option String) (maxPostDataLength : Nat) : SaveData :=
  let tr := safeTruncate postData maxPostDataLength
  { pageId := some pageId
    pageUrl := some pageUrl
    pageTitle := some pageTitle
    url := some url
    method := some method
    resourceType := some resourceType
    isNavigationRequest := some isNav
    frameUrl := frameUrl
    requestHeaders := headers
    requestBody := tr.1
    requestBodyTruncated := some tr.2
    status := none
    statusText := none
    responseHeaders := none
    responseBody := none
    responseBodyTruncated := some false
    responseBodyError := none
    timing := none
    error := none }

/-- The patch `_onResponse` passes to `updateRequest` (tracker in
`tools.js`): status line, cloned headers, the `_readResponseBody` result,
content type and timing.  Note that it contains no `responseBodyBytes` or
`responseBodySize` key. -/
def onResponsePatch (status : Int) (statusText : String)
    (responseHeaders : Option Headers) (body : Option String)
    (truncated : Bool) (bodyError : Option String)
    (contentType : Option String) (timing : Option Timing) : Patch :=
  { status := some (some status)
    statusText := some (some statusText)
    responseHeaders := some responseHeaders
    responseBody := some body
    responseBodyTruncated := some truncated
    responseBodyError := some bodyError
    contentType := some contentType
    timing := some timing
    durationMs := some (timing.bind (fun tm => tm.duration)) }

/-- The patch `_onRequestFailed` passes to `updateRequest`: sentinel status
0, the fixed failure marker and the failure's text. -/
def onRequestFailedPatch (errorText : Option String) : Patch :=
  { status := some (some 0)
    statusText := some (some "FAILED")
    error := some (some (errorText.getD "Request failed")) }

/-! ### Object-identity model of the query copy step

`queryRequests` ends with `limited.map((entry) => ({ ...entry }))`.  The
spread allocates a fresh record object but copies field values, so nested
objects (`requestHeaders`, `responseHeaders`, `timing`) stay shared between
the stored record and the returned copy.  The value-level model above
cannot express aliasing, so the copy step is re-modelled here with explicit
heaps: record objects and header objects live at numeric addresses, and a
record holds addresses of its nested objects. -/

/-- A record object with nested objects by reference; only the fields
relevant to sharing are spelled out (`url` stands for the flat top-level
fields). -/
structure RecordObj where
  id : String
  url : String
  requestHeadersRef : Option Nat
  responseHeadersRef : Option Nat
  timingRef : Option Nat
deriving DecidableEq

/-- The object heap: record objects and header objects, addressed by
position.  (The timing heap behaves identically and is omitted.) -/
structure ObjWorld where
  recCells : List RecordObj
  hdrCells : List Headers
deriving DecidableEq

/-- Read a header object. -/
def readHdr (w : ObjWorld) (a : Nat) : Headers := (w.hdrCells.getD a [])

/-- Mutate a header object in place (e.g. `result.requestHeaders.k = v`). -/
def writeHdr (w : ObjWorld) (a : Nat) (v : Headers) : ObjWorld :=
  { w with hdrCells := w.hdrCells.set a v }

/-- Read a record object. -/
def readRec (w : ObjWorld) (a : Nat) : RecordObj :=
  w.recCells.getD a { id := "", url := "", requestHeadersRef := none,
                      responseHeadersRef := none, timingRef := none }

/-- Mutate a top-level field of a record object in place
(e.g. `result.url = ...`). -/
def writeRecUrl (w : ObjWorld) (a : Nat) (v : String) : ObjWorld :=
  { w with recCells := w.recCells.set a { readRec w a with url := v } }

/-- Allocate a fresh record object. -/
def allocRec (w : ObjWorld) (r : RecordObj) : Nat × ObjWorld :=
  (w.recCells.length, { w with recCells := w.recCells ++ [r] })

/-- The copy `({ ...entry })` performed for one selected record at address
`storedAddr`: a fresh record object whose fields, the nested object
references included, are the stored record's field values. -/
def queryCopyStep (w : ObjWorld) (storedAddr : Nat) : Nat × ObjWorld :=
  allocRec w (readRec w storedAddr)

/-! ### Concrete scenario data used by the theorems below -/

/-- A run of `n` identical ASCII characters (one byte each). -/
def charRun (n : Nat) : String := String.mk (List.replicate n 'a')

/-- First insertion of the usage scenario: an untruncated 100-byte request
body, byte fields left for `saveRequest` to derive. -/
def usageRequestData : SaveData := { requestBody := some (charRun 100) }

/-- Second insertion of the usage scenario: a response body of original
size 70000 bytes captured truncated at the 65536-byte limit (the shape a
caller stores when it supplies the original size alongside the cut body). -/
def usageResponseData : SaveData :=
  { responseBody := some (charRun 65536)
    responseBodySize := some 70000
    responseBodyTruncated := some true }

/-- A record saved through the request handler's own data shape: a 10-byte
post body truncated at limit 4 by `safeTruncate`, byte fields derived by
`saveRequest`. -/
def truncatedSaveExample : Record :=
  (saveRequest 0
    (onRequestSaveData ("page-1") ("http://x/") ("x") ("http://x/post") ("POST")
      ("xhr") false none none (some (charRun 10)) 4)
    emptyStorage).1

/-- A minimal stored record for the query theorems. -/
def mkTestRecord (i : String) (ts : Nat) (u : String) : Record :=
  { id := i, timestamp := ts, pageId := none, pageUrl := none, pageTitle := none,
    url := some u, method := none, resourceType := none,
    isNavigationRequest := false, frameUrl := none, requestHeaders := none,
    requestBody := none, requestBodyTruncated := false,
    requestBodyBytes := some 0, requestBodySize := some 0, status := none,
    statusText := none, responseHeaders := none, responseBody := none,
    responseBodyTruncated := false, responseBodyError := none,
    responseBodyBytes := some 0, responseBodySize := some 0,
    contentType := none, timing := none, durationMs := none, error := none }

/-- A store holding a `.png` url and a `.png.js` url. -/
def pngStore : RequestStorage :=
  { requests := [mkTestRecord ("req-1") 1 ("http://x/a.png"),
                 mkTestRecord ("req-2") 2 ("http://x/a.png.js")],
    requestCounter := 2, activePageMonitors := [] }

/-- A search predicate standing for an unused `search` filter. -/
def noSearch : String → String → Bool := fun _ _ => false

/-- A date parser standing for a runtime in which no string parses. -/
def noParse : String → Option Int := fun _ => none

/-- A date parser recognising one concrete ISO-8601 string. -/
def demoParse : String → Option Int := fun s =>
  if s = "2025-01-01T00:00:00Z" then some 1735689600000 else none

/-- A concrete object world: one stored record whose `requestHeaders`
points at header object 0. -/
def demoWorld : ObjWorld :=
  { recCells := [{ id := "req-1", url := "http://x/a.png",
                   requestHeadersRef := some 0, responseHeadersRef := none,
                   timingRef := none }],
    hdrCells := [[("accept", "text/html")]] }

/-- A small tracker with concrete ceilings for the truncation witness. -/
def demoTracker : PageTracker :=
  { pageId := "page-9", monitorId := "monitor-9", maxRequestBodyBytes := 4,
    maxResponseBodyBytes := 8, disposed := false }

/-- The limits after a sequence of `configureNetworkLimits` calls starting
from the defaults. -/
def limitsAfter (cs : List ConfigureOptions) : Limits :=
  cs.foldl (fun cur o => configureNetworkLimits o cur) DEFAULT_LIMITS

/-- An override value is either rejected by `parseLimitOption` or at least
half a kilobyte (so that rounding cannot produce zero). -/
def halfKBOk (v : Option JsNumber) : Prop :=
  ∀ q, v = some (JsNumber.fin q) → q ≤ 0 ∨ 1/2 ≤ q

/-! ### General lemmas about the embedding -/

theorem foldl_utf8_replicate (c : Char) (n acc : Nat) :
    List.foldl (fun m ch => m + ch.utf8Size) acc (List.replicate n c) = acc + n * c.utf8Size := by
  induction n generalizing acc with
  | zero => simp
  | succ k ih =>
    simp [List.replicate_succ, ih]
    ring

theorem byteLength_charRun (n : Nat) : byteLength (charRun n) = n := by
  have h1 : Char.utf8Size 'a' = 1 := by decide
  simp [byteLength, charRun, foldl_utf8_replicate, h1]

theorem saveRequest_requests_eq (now : Nat) (data : SaveData) (s : RequestStorage) :
    (saveRequest now data s).2.requests = setRecord s.requests (saveRequest now data s).1 := rfl

theorem saveRequest_counter_eq (now : Nat) (data : SaveData) (s : RequestStorage) :
    (saveRequest now data s).2.requestCounter = s.requestCounter + 1 := rfl

theorem setRecord_append (rs : List Record) (r : Record)
    (h : rs.any (fun x => x.id = r.id) = false) : setRecord rs r = rs ++ [r] := by
  simp [setRecord, h]

/-- `Map.set` followed by `Map.get` on the same key finds the new record. -/
theorem findRecord_setRecord (rs : List Record) (r : Record) :
    findRecord (setRecord rs r) r.id = some r := by
  by_cases h : rs.any (fun x => x.id = r.id)
  · simp only [setRecord, if_pos h, findRecord]
    induction rs with
    | nil => simp at h
    | cons x xs ih =>
      by_cases hx : x.id = r.id
      · simp [List.find?_cons_of_pos, hx]
      · simp only [List.any_cons, Bool.or_eq_true, decide_eq_true_eq] at h
        rcases h with h | h
        · exact absurd h hx
        · rw [List.map_cons, if_neg hx, List.find?_cons_of_neg _ (by simpa using hx)]
          exact ih h
  · simp only [setRecord, if_neg h, findRecord]
    induction rs with
    | nil => simp [List.find?]
    | cons x xs ih =>
      simp only [List.any_cons, Bool.or_eq_true, decide_eq_true_eq, not_or] at h
      rw [List.cons_append, List.find?_cons_of_neg _ (by simpa using h.1)]
      exact ih (by simp [h.2])

/-- Appending one record shifts every `getUsage` counter by that record's
contribution. -/
theorem getUsage_append (s s' : RequestStorage) (r : Record)
    (h : s'.requests = s.requests ++ [r]) :
    getUsage s' = {
      totalRequests := (getUsage s).totalRequests + 1
      requestBytes := (getUsage s).requestBytes + reqSaved r
      requestOriginalBytes := (getUsage s).requestOriginalBytes + reqOriginal r
      requestTruncated := (getUsage s).requestTruncated + (if r.requestBodyTruncated then 1 else 0)
      responseBytes := (getUsage s).responseBytes + resSaved r
      responseOriginalBytes := (getUsage s).responseOriginalBytes + resOriginal r
      responseTruncated := (getUsage s).responseTruncated + (if r.responseBodyTruncated then 1 else 0)
      estimatedMemoryBytes := (getUsage s).estimatedMemoryBytes + reqSaved r + resSaved r } := by
  simp only [getUsage, h, List.map_append, List.sum_append, List.filter_append,
    List.length_append, List.map_cons, List.map_nil, List.sum_cons, List.sum_nil,
    List.filter_cons, List.filter_nil]
  cases hr : r.requestBodyTruncated <;> cases hs : r.responseBodyTruncated <;>
    simp [hr, hs] <;> omega

/-! ### Claim theorems -/

/-- C2 (counterexample): a record saved through the request handler's own
data shape — a 10-byte body truncated to 4 bytes, flag set, byte fields
derived by `saveRequest` — ends with `requestBodyTruncated = true` but
`requestBodyBytes = requestBodySize = 4`, so the claimed equivalence
"truncated iff captured bytes strictly below original bytes" is false for
this saved record. -/
theorem C2_counterexample :
    truncatedSaveExample.requestBodyTruncated = true ∧
    truncatedSaveExample.requestBodyBytes = some 4 ∧
    truncatedSaveExample.requestBodySize = some 4 ∧
    ¬(truncatedSaveExample.requestBodyTruncated = true ↔
      reqSaved truncatedSaveExample < reqOriginal truncatedSaveExample) := by
  decide

/-- C2 (amended): when the caller supplies none of the four byte-count
fields, `saveRequest` derives them from the already-truncated stored
bodies, so captured always equals original (`requestBodyBytes =
requestBodySize` and `responseBodyBytes = responseBodySize`); consequently
the equivalence "truncated flag iff captured < original" holds for such a
record exactly when the corresponding flag is false. -/
theorem C2_derived_sizes_equal (now : Nat) (data : SaveData) (s : RequestStorage)
    (hrb : data.requestBodyBytes = none) (hrs : data.requestBodySize = none)
    (hsb : data.responseBodyBytes = none) (hss : data.responseBodySize = none) :
    (saveRequest now data s).1.requestBodyBytes = (saveRequest now data s).1.requestBodySize ∧
    (saveRequest now data s).1.responseBodyBytes = (saveRequest now data s).1.responseBodySize ∧
    (((saveRequest now data s).1.requestBodyTruncated = true ↔
        reqSaved (saveRequest now data s).1 < reqOriginal (saveRequest now data s).1) ↔
      (saveRequest now data s).1.requestBodyTruncated = false) ∧
    (((saveRequest now data s).1.responseBodyTruncated = true ↔
        resSaved (saveRequest now data s).1 < resOriginal (saveRequest now data s).1) ↔
      (saveRequest now data s).1.responseBodyTruncated = false) := by
  simp only [saveRequest, hrb, hrs, hsb, hss]
  simp [reqSaved, reqOriginal, resSaved, resOriginal]

theorem C2_derived_sizes_equal_witness :
    ((({} : SaveData).requestBodyBytes = none) ∧ (({} : SaveData).requestBodySize = none) ∧
     (({} : SaveData).responseBodyBytes = none) ∧ (({} : SaveData).responseBodySize = none)) ∧
    ((saveRequest 0 {} emptyStorage).1.requestBodyBytes
        = (saveRequest 0 {} emptyStorage).1.requestBodySize ∧
     (saveRequest 0 {} emptyStorage).1.responseBodyBytes
        = (saveRequest 0 {} emptyStorage).1.responseBodySize ∧
     (((saveRequest 0 {} emptyStorage).1.requestBodyTruncated = true ↔
         reqSaved (saveRequest 0 {} emptyStorage).1 < reqOriginal (saveRequest 0 {} emptyStorage).1) ↔
       (saveRequest 0 {} emptyStorage).1.requestBodyTruncated = false) ∧
     (((saveRequest 0 {} emptyStorage).1.responseBodyTruncated = true ↔
         resSaved (saveRequest 0 {} emptyStorage).1 < resOriginal (saveRequest 0 {} emptyStorage).1) ↔
       (saveRequest 0 {} emptyStorage).1.responseBodyTruncated = false)) :=
  ⟨⟨rfl, rfl, rfl, rfl⟩, C2_derived_sizes_equal 0 {} emptyStorage rfl rfl rfl rfl⟩

/-- C3: starting from any store whose records do not collide with the next
two fresh identifiers, inserting the usage scenario's two records — an
untruncated 100-byte request body, then a response body of original size
70000 captured at 65536 bytes — raises `requestBytes` by 100,
`responseBytes` by 65536, `responseOriginalBytes` by 70000 and
`responseTruncated` by 1, and `estimatedMemoryBytes` equals
`requestBytes + responseBytes`. -/
theorem C3_usage_increments (s : RequestStorage) (now1 now2 : Nat)
    (h1 : ∀ r ∈ s.requests, r.id ≠ mkRequestId (s.requestCounter + 1))
    (h2 : ∀ r ∈ s.requests, r.id ≠ mkRequestId (s.requestCounter + 2))
    (hne : mkRequestId (s.requestCounter + 1) ≠ mkRequestId (s.requestCounter + 2)) :
    (getUsage (saveRequest now2 usageResponseData (saveRequest now1 usageRequestData s).2).2).requestBytes
      = (getUsage s).requestBytes + 100 ∧
    (getUsage (saveRequest now2 usageResponseData (saveRequest now1 usageRequestData s).2).2).responseBytes
      = (getUsage s).responseBytes + 65536 ∧
    (getUsage (saveRequest now2 usageResponseData (saveRequest now1 usageRequestData s).2).2).responseOriginalBytes
      = (getUsage s).responseOriginalBytes + 70000 ∧
    (getUsage (saveRequest now2 usageResponseData (saveRequest now1 usageRequestData s).2).2).responseTruncated
      = (getUsage s).responseTruncated + 1 ∧
    (getUsage (saveRequest now2 usageResponseData (saveRequest now1 usageRequestData s).2).2).estimatedMemoryBytes
      = (getUsage (saveRequest now2 usageResponseData (saveRequest now1 usageRequestData s).2).2).requestBytes
        + (getUsage (saveRequest now2 usageResponseData (saveRequest now1 usageRequestData s).2).2).responseBytes := by
  have hidA : (saveRequest now1 usageRequestData s).1.id = mkRequestId (s.requestCounter + 1) := by
    simp [saveRequest, usageRequestData]
  have hreq1 : (saveRequest now1 usageRequestData s).2.requests
      = s.requests ++ [(saveRequest now1 usageRequestData s).1] := by
    rw [saveRequest_requests_eq, setRecord_append]
    rw [hidA]
    simp only [List.any_eq_false, decide_eq_true_eq]
    exact h1
  have hidB : (saveRequest now2 usageResponseData (saveRequest now1 usageRequestData s).2).1.id
      = mkRequestId (s.requestCounter + 2) := by
    simp [saveRequest, usageResponseData, saveRequest_counter_eq]
  have hreq2 : (saveRequest now2 usageResponseData (saveRequest now1 usageRequestData s).2).2.requests
      = (saveRequest now1 usageRequestData s).2.requests
        ++ [(saveRequest now2 usageResponseData (saveRequest now1 usageRequestData s).2).1] := by
    rw [saveRequest_requests_eq, setRecord_append]
    rw [hidB, hreq1]
    simp only [List.any_append, List.any_eq_false, Bool.or_eq_false_iff, decide_eq_true_eq]
    constructor
    · exact h2
    · intro r hr
      simp only [List.mem_singleton] at hr
      rw [hr, hidA]
      exact hne
  have hu1 := getUsage_append s (saveRequest now1 usageRequestData s).2
    (saveRequest now1 usageRequestData s).1 hreq1
  have hu2 := getUsage_append (saveRequest now1 usageRequestData s).2
    (saveRequest now2 usageResponseData (saveRequest now1 usageRequestData s).2).2
    (saveRequest now2 usageResponseData (saveRequest now1 usageRequestData s).2).1 hreq2
  have hA1 : reqSaved (saveRequest now1 usageRequestData s).1 = 100 := by
    simp [saveRequest, usageRequestData, reqSaved, jsBodyBytes, byteLength_charRun]
  have hA3 : resSaved (saveRequest now1 usageRequestData s).1 = 0 := by
    simp [saveRequest, usageRequestData, resSaved, jsBodyBytes]
  have hA4 : resOriginal (saveRequest now1 usageRequestData s).1 = 0 := by
    simp [saveRequest, usageRequestData, resOriginal, resSaved, jsBodyBytes]
  have hA6 : (saveRequest now1 usageRequestData s).1.responseBodyTruncated = false := by
    simp [saveRequest, usageRequestData]
  have hB1 : reqSaved (saveRequest now2 usageResponseData (saveRequest now1 usageRequestData s).2).1 = 0 := by
    simp [saveRequest, usageResponseData, reqSaved, jsBodyBytes]
  have hB3 : resSaved (saveRequest now2 usageResponseData (saveRequest now1 usageRequestData s).2).1 = 65536 := by
    simp [saveRequest, usageResponseData, resSaved, jsBodyBytes, byteLength_charRun]
  have hB4 : resOriginal (saveRequest now2 usageResponseData (saveRequest now1 usageRequestData s).2).1 = 70000 := by
    simp [saveRequest, usageResponseData, resOriginal, resSaved]
  have hB6 : (saveRequest now2 usageResponseData (saveRequest now1 usageRequestData s).2).1.responseBodyTruncated = true := by
    simp [saveRequest, usageResponseData]
  have hbase : (getUsage s).estimatedMemoryBytes
      = (getUsage s).requestBytes + (getUsage s).responseBytes := rfl
  rw [hu2, hu1]
  simp only [hA1, hA3, hA4, hA6, hB1, hB3, hB4, hB6]
  simp
  omega

theorem C3_usage_increments_witness :
    ((∀ r ∈ emptyStorage.requests, r.id ≠ mkRequestId (emptyStorage.requestCounter + 1)) ∧
     (∀ r ∈ emptyStorage.requests, r.id ≠ mkRequestId (emptyStorage.requestCounter + 2)) ∧
     mkRequestId (emptyStorage.requestCounter + 1) ≠ mkRequestId (emptyStorage.requestCounter + 2)) ∧
    ((getUsage (saveRequest 0 usageResponseData (saveRequest 0 usageRequestData emptyStorage).2).2).requestBytes
      = (getUsage emptyStorage).requestBytes + 100 ∧
     (getUsage (saveRequest 0 usageResponseData (saveRequest 0 usageRequestData emptyStorage).2).2).responseBytes
      = (getUsage emptyStorage).responseBytes + 65536 ∧
     (getUsage (saveRequest 0 usageResponseData (saveRequest 0 usageRequestData emptyStorage).2).2).responseOriginalBytes
      = (getUsage emptyStorage).responseOriginalBytes + 70000 ∧
     (getUsage (saveRequest 0 usageResponseData (saveRequest 0 usageRequestData emptyStorage).2).2).responseTruncated
      = (getUsage emptyStorage).responseTruncated + 1 ∧
     (getUsage (saveRequest 0 usageResponseData (saveRequest 0 usageRequestData emptyStorage).2).2).estimatedMemoryBytes
      = (getUsage (saveRequest 0 usageResponseData (saveRequest 0 usageRequestData emptyStorage).2).2).requestBytes
        + (getUsage (saveRequest 0 usageResponseData (saveRequest 0 usageRequestData emptyStorage).2).2).responseBytes) :=
  ⟨⟨by simp [emptyStorage], by simp [emptyStorage], by decide⟩,
   C3_usage_increments emptyStorage 0 0 (by simp [emptyStorage]) (by simp [emptyStorage]) (by decide)⟩

/-- C10: a record created by the tracker's request handler (which stores
`responseBody: null` and no byte fields, so `saveRequest` initialises
`responseBodyBytes` and `responseBodySize` to 0) keeps both fields at 0
through the response-arrival update, whatever response body the patch
carries, because the patch has no byte-field keys and `updateRequest` only
derives a byte field when it is not already numeric on the record. -/
theorem C10_response_bytes_never_change
    (now : Nat) (s : RequestStorage)
    (pid purl ptitle url method rtype : String) (isNav : Bool)
    (frameUrl : Option String) (headers : Option Headers)
    (postData : Option String) (maxPost : Nat)
    (status : Int) (statusText : String) (respHeaders : Option Headers)
    (body : Option String) (truncated : Bool) (bodyError : Option String)
    (ctype : Option String) (timing : Option Timing) :
    let p0 := saveRequest now
      (onRequestSaveData pid purl ptitle url method rtype isNav frameUrl headers postData maxPost) s
    let patch := onResponsePatch status statusText respHeaders body truncated bodyError ctype timing
    p0.1.responseBodyBytes = some 0 ∧
    p0.1.responseBodySize = some 0 ∧
    (updateRequest p0.1.id patch p0.2).1 = some (updateRecord p0.1 patch) ∧
    (updateRecord p0.1 patch).responseBodyBytes = some 0 ∧
    (updateRecord p0.1 patch).responseBodySize = some 0 := by
  intro p0 patch
  have hb : p0.1.responseBodyBytes = some 0 := by
    simp [p0, saveRequest, onRequestSaveData, jsBodyBytes]
  have hsz : p0.1.responseBodySize = some 0 := by
    simp [p0, saveRequest, onRequestSaveData, jsBodyBytes]
  have hupd : (updateRequest p0.1.id patch p0.2).1 = some (updateRecord p0.1 patch) := by
    simp only [p0, updateRequest, saveRequest_requests_eq, findRecord_setRecord]
  have hb2 : (updateRecord p0.1 patch).responseBodyBytes = some 0 := by
    simp [updateRecord, applyPatch, patch, onResponsePatch, hb]
  have hsz2 : (updateRecord p0.1 patch).responseBodySize = some 0 := by
    simp [updateRecord, applyPatch, patch, onResponsePatch, hb, hsz]
  exact ⟨hb, hsz, hupd, hb2, hsz2⟩


/-- C4 (counterexample): contrary to the claim, `urlPattern "*.png"` does
match a record with url `"http://x/a.png.js"`: `RegExp.test` is an
unanchored search, so the `.png` segment may match in the middle of the
url. -/
theorem C4_counterexample :
    (queryRequests noSearch noParse { urlPattern := some ("*.png") } pngStore).results.contains
      (mkTestRecord ("req-2") 2 ("http://x/a.png.js")) = true ∧
    wildcardTest ("*.png") ("http://x/a.png.js") = true := by
  decide

/-- C4 (amended): the urlPattern filter is a case-insensitive unanchored
wildcard search in which `*` matches any substring and the escaped
metacharacters are literal: `"*.png"` matches both `"http://x/a.png"` and
`"http://x/a.png.js"` (both records are returned), match is
case-insensitive, a non-occurring literal fails, and multiple `*` segments
must occur in order. -/
theorem C4_wildcard_search :
    (queryRequests noSearch noParse { urlPattern := some ("*.png") } pngStore).total = 2 ∧
    wildcardTest ("*.png") ("http://x/a.png") = true ∧
    wildcardTest ("*.PNG") ("http://x/a.png") = true ∧
    wildcardTest ("*.png") ("http://x/a.jpg") = false ∧
    wildcardTest ("a*b*c") ("zz a xx b yy c zz") = true ∧
    wildcardTest ("a*b*c") ("cba") = false := by
  decide

/-- C6: with no filters, `queryRequests` returns every stored record
(`total` is the store size), sorted by timestamp descending; with a
positive `limit`, `total` still reports the full count while the result
list has at most `limit` entries. -/
theorem C6_query_no_filters (sp : String → String → Bool) (pd : String → Option Int)
    (s : RequestStorage) (l : Int) (hl : 0 < l) :
    (queryRequests sp pd {} s).total = s.requests.length ∧
    List.Perm (queryRequests sp pd {} s).results s.requests ∧
    List.Sorted (fun a b => b.timestamp ≤ a.timestamp) (queryRequests sp pd {} s).results ∧
    (queryRequests sp pd { limit := some l } s).total = s.requests.length ∧
    (queryRequests sp pd { limit := some l } s).results.length ≤ l.toNat := by
  haveI hTot : IsTotal Record (fun a b => b.timestamp ≤ a.timestamp) :=
    ⟨fun a b => le_total b.timestamp a.timestamp⟩
  haveI hTrans : IsTrans Record (fun a b => b.timestamp ≤ a.timestamp) :=
    ⟨fun a b c hab hbc => le_trans hbc hab⟩
  have hfil : applyFilters sp pd {} s.requests = s.requests := rfl
  have hfil2 : applyFilters sp pd { limit := some l } s.requests = s.requests := rfl
  have hperm : List.Perm (sortByTimestampDesc s.requests) s.requests :=
    List.perm_insertionSort _ _
  refine ⟨?_, ?_, ?_, ?_, ?_⟩
  · show (sortByTimestampDesc (applyFilters sp pd {} s.requests)).length = s.requests.length
    rw [hfil]
    exact hperm.length_eq
  · show List.Perm (sortByTimestampDesc (applyFilters sp pd {} s.requests)) s.requests
    rw [hfil]
    exact hperm
  · show List.Sorted (fun a b => b.timestamp ≤ a.timestamp)
      (sortByTimestampDesc (applyFilters sp pd {} s.requests))
    rw [hfil]
    exact List.sorted_insertionSort _ _
  · show (sortByTimestampDesc (applyFilters sp pd { limit := some l } s.requests)).length
      = s.requests.length
    rw [hfil2]
    exact hperm.length_eq
  · have hres : (queryRequests sp pd { limit := some l } s).results
        = (sortByTimestampDesc s.requests).take l.toNat := by
      simp only [queryRequests, hfil2]
      rw [if_pos hl]
    rw [hres]
    exact List.length_take_le l.toNat (sortByTimestampDesc s.requests)

theorem C6_query_no_filters_witness :
    (0:Int) < 1 ∧
    ((queryRequests noSearch noParse {} pngStore).total = pngStore.requests.length ∧
     List.Perm (queryRequests noSearch noParse {} pngStore).results pngStore.requests ∧
     List.Sorted (fun a b => b.timestamp ≤ a.timestamp) (queryRequests noSearch noParse {} pngStore).results ∧
     (queryRequests noSearch noParse { limit := some 1 } pngStore).total = pngStore.requests.length ∧
     (queryRequests noSearch noParse { limit := some 1 } pngStore).results.length ≤ (1:Int).toNat) :=
  ⟨by decide, C6_query_no_filters noSearch noParse pngStore 1 (by decide)⟩


theorem mem_ite_filter {c : Bool} {p : Record → Bool} {xs : List Record} {e : Record} :
    e ∈ (if c then xs.filter p else xs) ↔ e ∈ xs ∧ (c = true → p e = true) := by
  cases c <;> simp [List.mem_filter]

/-- C7: the `since` filter is an inclusive lower bound on `timestamp` for a
millisecond number or for a string the host date parser accepts, and is not
applied at all (returning normally) for an unparseable string. -/
theorem C7_since_inclusive (sp : String → String → Bool) (pd : String → Option Int)
    (f : QueryFilters) (rs : List Record) (e : Record) :
    (∀ n : Int,
      (e ∈ applyFilters sp pd { f with since := some (SinceVal.num n) } rs ↔
       (e ∈ applyFilters sp pd { f with since := none } rs ∧ n ≤ (e.timestamp : Int)))) ∧
    (∀ (u : String) (t : Int), u ≠ "" → pd u = some t →
      (e ∈ applyFilters sp pd { f with since := some (SinceVal.str u) } rs ↔
       (e ∈ applyFilters sp pd { f with since := none } rs ∧ t ≤ (e.timestamp : Int)))) ∧
    (∀ u : String, pd u = none →
      applyFilters sp pd { f with since := some (SinceVal.str u) } rs
        = applyFilters sp pd { f with since := none } rs) ∧
    (∀ (u : String) (s : RequestStorage), pd u = none →
      queryRequests sp pd { f with since := some (SinceVal.str u) } s
        = queryRequests sp pd { f with since := none } s) := by
  have hts : (0 : Int) ≤ (e.timestamp : Int) := Int.natCast_nonneg _
  have key : ∀ (u : String) (xs : List Record), pd u = none →
      applyFilters sp pd { f with since := some (SinceVal.str u) } xs
        = applyFilters sp pd { f with since := none } xs := by
    intro u xs hu
    simp only [applyFilters, sinceTruthy, normalizeTimestamp, hu, ite_self]
  refine ⟨?_, ?_, fun u => key u rs, ?_⟩
  · intro n
    by_cases hn : n = 0
    · subst hn
      simp only [applyFilters, sinceTruthy, normalizeTimestamp]
      simp [hts]
    · simp only [applyFilters, sinceTruthy, normalizeTimestamp, bne_iff_ne, ne_eq, hn,
        not_false_eq_true, if_true]
      rw [mem_ite_filter, mem_ite_filter]
      constructor
      · rintro ⟨hmem, hsp⟩
        rw [List.mem_filter] at hmem
        refine ⟨⟨hmem.1, fun hc => hsp hc⟩, by simpa using hmem.2⟩
      · rintro ⟨⟨hmem, hsp⟩, hle⟩
        exact ⟨List.mem_filter.mpr ⟨hmem, by simpa using hle⟩, fun hc => hsp hc⟩
  · intro u t hu hpt
    by_cases ht : t = 0
    · subst ht
      simp only [applyFilters, sinceTruthy, normalizeTimestamp, hpt]
      simp [hu, hts]
    · simp only [applyFilters, sinceTruthy, normalizeTimestamp, hpt, bne_iff_ne, ne_eq, hu,
        not_false_eq_true, if_true, ht]
      rw [mem_ite_filter, mem_ite_filter]
      constructor
      · rintro ⟨hmem, hsp⟩
        rw [List.mem_filter] at hmem
        refine ⟨⟨hmem.1, fun hc => hsp hc⟩, by simpa using hmem.2⟩
      · rintro ⟨⟨hmem, hsp⟩, hle⟩
        exact ⟨List.mem_filter.mpr ⟨hmem, by simpa using hle⟩, fun hc => hsp hc⟩
  · intro u s hu
    simp only [queryRequests]
    rw [key u s.requests hu]

theorem C7_since_inclusive_witness :
    (("2025-01-01T00:00:00Z" : String) ≠ "" ∧
     demoParse ("2025-01-01T00:00:00Z") = some 1735689600000 ∧
     demoParse ("not-a-date") = none) ∧
    ((mkTestRecord ("req-1") 1 ("http://x/a.png")) ∈
        applyFilters noSearch demoParse
          { ({} : QueryFilters) with since := some (SinceVal.str ("2025-01-01T00:00:00Z")) }
          pngStore.requests ↔
      ((mkTestRecord ("req-1") 1 ("http://x/a.png")) ∈
        applyFilters noSearch demoParse { ({} : QueryFilters) with since := none } pngStore.requests ∧
        (1735689600000 : Int) ≤ ((mkTestRecord ("req-1") 1 ("http://x/a.png")).timestamp : Int))) ∧
    (queryRequests noSearch demoParse
        { ({} : QueryFilters) with since := some (SinceVal.str ("not-a-date")) } pngStore
      = queryRequests noSearch demoParse { ({} : QueryFilters) with since := none } pngStore) :=
  ⟨⟨by decide, by decide, by decide⟩,
   (C7_since_inclusive noSearch demoParse {} pngStore.requests
      (mkTestRecord ("req-1") 1 ("http://x/a.png"))).2.1 ("2025-01-01T00:00:00Z") 1735689600000
      (by decide) (by decide),
   (C7_since_inclusive noSearch demoParse {} pngStore.requests
      (mkTestRecord ("req-1") 1 ("http://x/a.png"))).2.2.2 ("not-a-date") pngStore (by decide)⟩


theorem alistGet_set {α β : Type} [DecidableEq α] (m : List (α × β)) (k : α) (v : β) :
    alistGet (alistSet m k v) k = some v := by
  by_cases h : m.any (fun kv => kv.1 = k)
  · simp only [alistSet, if_pos h, alistGet]
    induction m with
    | nil => simp at h
    | cons x xs ih =>
      by_cases hx : x.1 = k
      · simp [List.find?_cons_of_pos, hx]
      · simp only [List.any_cons, Bool.or_eq_true, decide_eq_true_eq] at h
        rcases h with h | h
        · exact absurd h hx
        · rw [List.map_cons, if_neg hx, List.find?_cons_of_neg _ (by simpa using hx)]
          exact ih h
  · simp only [alistSet, if_neg h, alistGet]
    induction m with
    | nil => simp [List.find?]
    | cons x xs ih =>
      simp only [List.any_cons, Bool.or_eq_true, decide_eq_true_eq, not_or] at h
      rw [List.cons_append, List.find?_cons_of_neg _ (by simpa using h.1)]
      exact ih (by simp [h.2])

theorem alistSet_keep {α β : Type} [DecidableEq α] (m : List (α × β)) (k : α) (v : β)
    (hall : ∀ kv ∈ m, kv.1 = k → kv = (k, v)) (hany : m.any (fun kv => kv.1 = k) = true) :
    alistSet m k v = m := by
  simp only [alistSet, if_pos hany]
  clear hany
  revert hall
  induction m with
  | nil => intro _; rfl
  | cons x xs ih =>
    intro hall
    simp only [List.map_cons, List.cons.injEq]
    refine ⟨?_, ih (fun kv hkv hk => hall kv (by simp [hkv]) hk)⟩
    by_cases hx : x.1 = k
    · rw [if_pos hx]
      exact (hall x (by simp) hx).symm
    · rw [if_neg hx]

theorem alistSet_entry_eq {α β : Type} [DecidableEq α] (m : List (α × β)) (k : α) (v : β) :
    ∀ kv ∈ alistSet m k v, kv.1 = k → kv = (k, v) := by
  intro kv hkv hk
  by_cases h : m.any (fun kv => kv.1 = k)
  · simp only [alistSet, if_pos h, List.mem_map] at hkv
    rcases hkv with ⟨x, _, hx⟩
    by_cases hxk : x.1 = k
    · rw [if_pos hxk] at hx
      exact hx.symm
    · rw [if_neg hxk] at hx
      rw [← hx] at hk
      exact absurd hk hxk
  · simp only [alistSet, if_neg h, List.mem_append, List.mem_singleton] at hkv
    simp only [Bool.not_eq_true, List.any_eq_false, decide_eq_true_eq] at h
    rcases hkv with hkv | hkv
    · exact absurd hk (h kv hkv)
    · exact hkv

theorem alistSet_any {α β : Type} [DecidableEq α] (m : List (α × β)) (k : α) (v : β) :
    (alistSet m k v).any (fun kv => kv.1 = k) = true := by
  by_cases h : m.any (fun kv => kv.1 = k)
  · simp only [alistSet, if_pos h]
    simp only [List.any_eq_true, decide_eq_true_eq] at h ⊢
    rcases h with ⟨x, hx, hk⟩
    exact ⟨(k, v), List.mem_map.mpr ⟨x, hx, by rw [if_pos hk]⟩, rfl⟩
  · simp only [alistSet, if_neg h]
    simp only [List.any_eq_true, decide_eq_true_eq]
    exact ⟨(k, v), by simp, rfl⟩

theorem alistSet_idem {α β : Type} [DecidableEq α] (m : List (α × β)) (k : α) (v : β) :
    alistSet (alistSet m k v) k v = alistSet m k v :=
  alistSet_keep _ _ _ (alistSet_entry_eq m k v) (alistSet_any m k v)

theorem alistGet_remove {α β : Type} [DecidableEq α] (m : List (α × β)) (k : α) :
    alistGet (alistRemove m k) k = none := by
  have hfind : List.find? (fun kv => decide (kv.1 = k))
      (List.filter (fun kv => decide (kv.1 ≠ k)) m) = none := by
    rw [List.find?_eq_none]
    intro x hx
    simp only [List.mem_filter, decide_eq_true_eq] at hx
    simp [hx.2]
  simp [alistGet, alistRemove, hfind]


theorem ensure_of_contexts_set (m : List (Nat × CtxState)) (pc tc : Nat) (lim : Limits)
    (sb : List Sub) (ctx : Nat) (cs : CtxState) :
    ensureCtxState { contexts := alistSet m ctx cs, pageCounter := pc, trackerCounter := tc,
                     currentLimits := lim, subs := sb } ctx = cs := by
  simp [ensureCtxState, alistGet_set]

theorem attach_attach (st : NetState) (ctx page : Nat) :
    attachPage (attachPage st ctx page).2 ctx page = attachPage st ctx page := by
  cases h : alistGet (ensureCtxState st ctx).trackers page with
  | some t => simp [attachPage, h, ensure_of_contexts_set, alistGet_set, alistSet_idem]
  | none => simp [attachPage, h, ensure_of_contexts_set, alistGet_set, alistSet_idem]

theorem detach_detach (st : NetState) (ctx page : Nat) :
    detachPage (detachPage st ctx page) ctx page = detachPage st ctx page := by
  cases h1 : alistGet st.contexts ctx with
  | none => simp [detachPage, h1]
  | some cs =>
    cases h2 : alistGet cs.trackers page with
    | none => simp [detachPage, h1, h2]
    | some t => simp [detachPage, h1, h2, alistGet_set, alistGet_remove]


/-- C8: page attachment and detachment are idempotent — attaching the same
page twice returns the same tracker with no further state change, a second
detach (or a detach for an unknown context or page) is a no-op, and a
second dispose has no effect beyond the first. -/
theorem C8_lifecycle_idempotent :
    (∀ st ctx page, attachPage (attachPage st ctx page).2 ctx page = attachPage st ctx page) ∧
    (∀ st ctx page, detachPage (detachPage st ctx page) ctx page = detachPage st ctx page) ∧
    (∀ st ctx page, alistGet st.contexts ctx = none → detachPage st ctx page = st) ∧
    (∀ st ctx page cs, alistGet st.contexts ctx = some cs →
      alistGet cs.trackers page = none → detachPage st ctx page = st) ∧
    (∀ t storage subs,
      disposeTracker (disposeTracker t storage subs).1 (disposeTracker t storage subs).2.1
        (disposeTracker t storage subs).2.2 = disposeTracker t storage subs) := by
  refine ⟨attach_attach, detach_detach, ?_, ?_, ?_⟩
  · intro st ctx page h
    simp [detachPage, h]
  · intro st ctx page cs h1 h2
    simp [detachPage, h1, h2]
  · intro t storage subs
    by_cases h : t.disposed <;> simp [disposeTracker, h]

theorem C8_lifecycle_idempotent_witness :
    (attachPage (attachPage initialNetState 1 1).2 1 1 = attachPage initialNetState 1 1) ∧
    (detachPage (detachPage (attachPage initialNetState 1 1).2 1 1) 1 1
      = detachPage (attachPage initialNetState 1 1).2 1 1) ∧
    (alistGet initialNetState.contexts 1 = none ∧ detachPage initialNetState 1 1 = initialNetState) ∧
    (alistGet (attachPage initialNetState 1 1).2.contexts 1
        = some (ensureCtxState (attachPage initialNetState 1 1).2 1) ∧
     alistGet (ensureCtxState (attachPage initialNetState 1 1).2 1).trackers 2 = none ∧
     detachPage (attachPage initialNetState 1 1).2 1 2 = (attachPage initialNetState 1 1).2) ∧
    (disposeTracker
        (disposeTracker (attachPage initialNetState 1 1).1 emptyStorage []).1
        (disposeTracker (attachPage initialNetState 1 1).1 emptyStorage []).2.1
        (disposeTracker (attachPage initialNetState 1 1).1 emptyStorage []).2.2
      = disposeTracker (attachPage initialNetState 1 1).1 emptyStorage []) :=
  ⟨C8_lifecycle_idempotent.1 initialNetState 1 1,
   C8_lifecycle_idempotent.2.1 (attachPage initialNetState 1 1).2 1 1,
   ⟨by decide, C8_lifecycle_idempotent.2.2.1 initialNetState 1 1 (by decide)⟩,
   ⟨by decide, by decide,
    C8_lifecycle_idempotent.2.2.2.1 (attachPage initialNetState 1 1).2 1 2
      (ensureCtxState (attachPage initialNetState 1 1).2 1) (by decide) (by decide)⟩,
   C8_lifecycle_idempotent.2.2.2.2 (attachPage initialNetState 1 1).1 emptyStorage []⟩


theorem mathRound_nonneg (q : Rat) (h : 0 < q) : 0 ≤ mathRound q := by
  unfold mathRound
  rw [Rat.le_floor]
  push_cast
  linarith

theorem mathRound_ge_one (q : Rat) (h : 1/2 ≤ q) : 1 ≤ mathRound q := by
  unfold mathRound
  rw [Rat.le_floor]
  push_cast
  linarith

theorem parseLimitOption_some (v : Option JsNumber) (k : Int)
    (h : parseLimitOption v = some k) :
    ∃ q, v = some (JsNumber.fin q) ∧ ¬ q ≤ 0 ∧ k = mathRound q := by
  match v with
  | none => simp [parseLimitOption] at h
  | some JsNumber.nonFinite => simp [parseLimitOption] at h
  | some (JsNumber.fin q) =>
    by_cases hq : q ≤ 0
    · simp [parseLimitOption, hq] at h
    · simp [parseLimitOption, hq] at h
      exact ⟨q, rfl, hq, h.symm⟩

theorem configure_nonneg (o : ConfigureOptions) (cur : Limits)
    (h1 : 0 ≤ cur.maxRequestBodyBytes) (h2 : 0 ≤ cur.maxResponseBodyBytes) :
    0 ≤ (configureNetworkLimits o cur).maxRequestBodyBytes ∧
    0 ≤ (configureNetworkLimits o cur).maxResponseBodyBytes := by
  constructor
  · unfold configureNetworkLimits
    dsimp only
    cases ho : parseLimitOption o.maxRequestBodyKB with
    | none => exact h1
    | some k =>
      obtain ⟨q, _, hq, hk⟩ := parseLimitOption_some _ _ ho
      have := mathRound_nonneg q (by linarith [lt_of_not_le hq])
      have hk0 : 0 ≤ k := hk ▸ this
      exact mul_nonneg hk0 (by norm_num [KB])
  · unfold configureNetworkLimits
    dsimp only
    cases ho : parseLimitOption o.maxResponseBodyKB with
    | none => exact h2
    | some k =>
      obtain ⟨q, _, hq, hk⟩ := parseLimitOption_some _ _ ho
      have := mathRound_nonneg q (by linarith [lt_of_not_le hq])
      have hk0 : 0 ≤ k := hk ▸ this
      exact mul_nonneg hk0 (by norm_num [KB])

theorem configure_pos (o : ConfigureOptions) (cur : Limits)
    (hreq : halfKBOk o.maxRequestBodyKB) (hresp : halfKBOk o.maxResponseBodyKB)
    (h1 : 0 < cur.maxRequestBodyBytes) (h2 : 0 < cur.maxResponseBodyBytes) :
    0 < (configureNetworkLimits o cur).maxRequestBodyBytes ∧
    0 < (configureNetworkLimits o cur).maxResponseBodyBytes := by
  constructor
  · unfold configureNetworkLimits
    dsimp only
    cases ho : parseLimitOption o.maxRequestBodyKB with
    | none => exact h1
    | some k =>
      obtain ⟨q, hv, hq, hk⟩ := parseLimitOption_some _ _ ho
      rcases hreq q hv with hle | hge
      · exact absurd hle hq
      · have hk1 : 1 ≤ k := hk ▸ mathRound_ge_one q hge
        have : (0:Int) < KB := by norm_num [KB]
        exact mul_pos (by omega) this
  · unfold configureNetworkLimits
    dsimp only
    cases ho : parseLimitOption o.maxResponseBodyKB with
    | none => exact h2
    | some k =>
      obtain ⟨q, hv, hq, hk⟩ := parseLimitOption_some _ _ ho
      rcases hresp q hv with hle | hge
      · exact absurd hle hq
      · have hk1 : 1 ≤ k := hk ▸ mathRound_ge_one q hge
        have : (0:Int) < KB := by norm_num [KB]
        exact mul_pos (by omega) this

theorem foldl_configure_nonneg (cs : List ConfigureOptions) (cur : Limits)
    (h1 : 0 ≤ cur.maxRequestBodyBytes) (h2 : 0 ≤ cur.maxResponseBodyBytes) :
    0 ≤ (cs.foldl (fun c o => configureNetworkLimits o c) cur).maxRequestBodyBytes ∧
    0 ≤ (cs.foldl (fun c o => configureNetworkLimits o c) cur).maxResponseBodyBytes := by
  induction cs generalizing cur with
  | nil => exact ⟨h1, h2⟩
  | cons o os ih =>
    simp only [List.foldl_cons]
    have h := configure_nonneg o cur h1 h2
    exact ih _ h.1 h.2

theorem foldl_configure_pos (cs : List ConfigureOptions) (cur : Limits)
    (hcs : ∀ o ∈ cs, halfKBOk o.maxRequestBodyKB ∧ halfKBOk o.maxResponseBodyKB)
    (h1 : 0 < cur.maxRequestBodyBytes) (h2 : 0 < cur.maxResponseBodyBytes) :
    0 < (cs.foldl (fun c o => configureNetworkLimits o c) cur).maxRequestBodyBytes ∧
    0 < (cs.foldl (fun c o => configureNetworkLimits o c) cur).maxResponseBodyBytes := by
  induction cs generalizing cur with
  | nil => exact ⟨h1, h2⟩
  | cons o os ih =>
    simp only [List.foldl_cons]
    have h := configure_pos o cur (hcs o (by simp)).1 (hcs o (by simp)).2 h1 h2
    exact ih _ (fun o' ho' => hcs o' (List.mem_cons_of_mem _ ho')) h.1 h.2

/-- C9 (counterexample): `configureNetworkLimits({ maxRequestBodyKB: 0.3 })`
passes the positivity check, `Math.round(0.3)` yields 0, and the request
limit becomes 0 bytes — not a positive byte ceiling, refuting the claim
that limits remain positive after arbitrary configuration inputs. -/
theorem C9_counterexample :
    (configureNetworkLimits { maxRequestBodyKB := some (JsNumber.fin (3/10)) }
      DEFAULT_LIMITS).maxRequestBodyBytes = 0 ∧
    ¬ (0 < (configureNetworkLimits { maxRequestBodyKB := some (JsNumber.fin (3/10)) }
      DEFAULT_LIMITS).maxRequestBodyBytes) := by
  have h0 : ¬ ((3:Rat)/10 ≤ 0) := by norm_num
  have hr : mathRound ((3:Rat)/10) = 0 := by
    norm_num [mathRound, Rat.floor]
  have hpar : parseLimitOption (some (JsNumber.fin (3/10))) = some 0 := by
    simp [parseLimitOption, h0, hr]
  constructor
  · simp [configureNetworkLimits, hpar]
  · simp [configureNetworkLimits, hpar]

/-- C9 (amended): each override is parsed as a positive finite number and
rounded to the nearest integer kilobyte before conversion to bytes;
non-finite or non-positive values are ignored, keeping the previous limit
in effect.  After any sequence of configuration calls both limits remain
non-negative byte ceilings, and they remain positive provided every
accepted override is at least half a kilobyte; an accepted override
strictly between 0 and 0.5 KB rounds to zero kilobytes and sets that limit
to zero bytes. -/
theorem C9_limits_after_configuration :
    (∀ q : Rat, q ≤ 0 → parseLimitOption (some (JsNumber.fin q)) = none) ∧
    (parseLimitOption (some JsNumber.nonFinite) = none ∧ parseLimitOption none = none) ∧
    (∀ (cur : Limits) (q1 q2 : Rat), q1 ≤ 0 → q2 ≤ 0 →
      configureNetworkLimits
        { maxRequestBodyKB := some (JsNumber.fin q1),
          maxResponseBodyKB := some (JsNumber.fin q2) } cur = cur) ∧
    (∀ cs : List ConfigureOptions,
      0 ≤ (limitsAfter cs).maxRequestBodyBytes ∧ 0 ≤ (limitsAfter cs).maxResponseBodyBytes) ∧
    (∀ cs : List ConfigureOptions,
      (∀ o ∈ cs, halfKBOk o.maxRequestBodyKB ∧ halfKBOk o.maxResponseBodyKB) →
      0 < (limitsAfter cs).maxRequestBodyBytes ∧ 0 < (limitsAfter cs).maxResponseBodyBytes) := by
  refine ⟨?_, ⟨rfl, rfl⟩, ?_, ?_, ?_⟩
  · intro q hq
    simp [parseLimitOption, hq]
  · intro cur q1 q2 h1 h2
    simp [configureNetworkLimits, parseLimitOption, h1, h2]
  · intro cs
    exact foldl_configure_nonneg cs DEFAULT_LIMITS (by norm_num [DEFAULT_LIMITS, KB])
      (by norm_num [DEFAULT_LIMITS, KB])
  · intro cs hcs
    exact foldl_configure_pos cs DEFAULT_LIMITS hcs (by norm_num [DEFAULT_LIMITS, KB])
      (by norm_num [DEFAULT_LIMITS, KB])

theorem C9_limits_after_configuration_witness :
    ((0:Rat) ≤ 0 ∧ parseLimitOption (some (JsNumber.fin 0)) = none) ∧
    ((0:Rat) ≤ 0 ∧ configureNetworkLimits
        { maxRequestBodyKB := some (JsNumber.fin 0),
          maxResponseBodyKB := some (JsNumber.fin 0) } DEFAULT_LIMITS = DEFAULT_LIMITS) ∧
    (0 ≤ (limitsAfter []).maxRequestBodyBytes ∧ 0 ≤ (limitsAfter []).maxResponseBodyBytes) ∧
    ((∀ o ∈ ([] : List ConfigureOptions), halfKBOk o.maxRequestBodyKB ∧ halfKBOk o.maxResponseBodyKB) ∧
     (0 < (limitsAfter []).maxRequestBodyBytes ∧ 0 < (limitsAfter []).maxResponseBodyBytes)) :=
  ⟨⟨le_refl 0, C9_limits_after_configuration.1 0 (le_refl 0)⟩,
   ⟨le_refl 0, C9_limits_after_configuration.2.2.1 DEFAULT_LIMITS 0 0 (le_refl 0) (le_refl 0)⟩,
   C9_limits_after_configuration.2.2.2.1 [],
   ⟨by simp, C9_limits_after_configuration.2.2.2.2 [] (by simp)⟩⟩


/-- C1: a tracker constructed by `attachPage` captures the limits in effect
at construction: from the initial state the ceilings are the 32 KiB / 64
KiB defaults; attaching a fresh page after `configureNetworkLimits` gives a
tracker with the newly configured ceilings; configuring limits afterwards
leaves an already-attached tracker unchanged (capture by value); and the
tracker's ceilings are what the truncation step cuts at. -/
theorem C1_limits_captured_by_value :
    ((attachPage initialNetState 1 1).1.maxRequestBodyBytes = 32 * 1024 ∧
     (attachPage initialNetState 1 1).1.maxResponseBodyBytes = 64 * 1024) ∧
    (∀ st ctx page o, lookupTracker st ctx page = none →
      (attachPage (applyConfigure o st) ctx page).1.maxRequestBodyBytes
        = (configureNetworkLimits o st.currentLimits).maxRequestBodyBytes ∧
      (attachPage (applyConfigure o st) ctx page).1.maxResponseBodyBytes
        = (configureNetworkLimits o st.currentLimits).maxResponseBodyBytes) ∧
    (∀ st ctx page o t, lookupTracker st ctx page = some t →
      lookupTracker (applyConfigure o st) ctx page = some t) ∧
    (∀ (t : PageTracker) (body : String), t.maxRequestBodyBytes.toNat < body.length →
      trackerTruncRequestBody t (some body)
        = (some (String.mk (body.data.take t.maxRequestBodyBytes.toNat)), true)) ∧
    (∀ (t : PageTracker) (body : String), body.length ≤ t.maxResponseBodyBytes.toNat →
      trackerTruncResponseBody t (some body) = (some body, false)) := by
  refine ⟨by decide, ?_, ?_, ?_, ?_⟩
  · intro st ctx page o h
    have hnone : alistGet (ensureCtxState st ctx).trackers page = none := by
      unfold lookupTracker at h
      unfold ensureCtxState
      cases hg : alistGet st.contexts ctx with
      | none => simp [alistGet]
      | some cs =>
        rw [hg] at h
        simpa using h
    have hens : ensureCtxState (applyConfigure o st) ctx = ensureCtxState st ctx := rfl
    have hlim : (applyConfigure o st).currentLimits = configureNetworkLimits o st.currentLimits := rfl
    constructor <;> simp [attachPage, hens, hnone, hlim]
  · intro st ctx page o t h
    exact h
  · intro t body h
    have h0 : ¬ body.length = 0 := by omega
    simp only [trackerTruncRequestBody, safeTruncate]
    rw [if_neg h0, if_pos h]
  · intro t body h
    simp only [trackerTruncResponseBody, safeTruncate]
    by_cases h0 : body.length = 0
    · rw [if_pos h0]
    · rw [if_neg h0, if_neg (by omega)]

theorem C1_limits_captured_by_value_witness :
    (lookupTracker initialNetState 1 1 = none ∧
     ((attachPage (applyConfigure {} initialNetState) 1 1).1.maxRequestBodyBytes
        = (configureNetworkLimits {} initialNetState.currentLimits).maxRequestBodyBytes ∧
      (attachPage (applyConfigure {} initialNetState) 1 1).1.maxResponseBodyBytes
        = (configureNetworkLimits {} initialNetState.currentLimits).maxResponseBodyBytes)) ∧
    (lookupTracker (attachPage initialNetState 1 1).2 1 1 = some (attachPage initialNetState 1 1).1 ∧
     lookupTracker (applyConfigure {} (attachPage initialNetState 1 1).2) 1 1
        = some (attachPage initialNetState 1 1).1) ∧
    (demoTracker.maxRequestBodyBytes.toNat < (charRun 10).length ∧
     trackerTruncRequestBody demoTracker (some (charRun 10))
        = (some (String.mk ((charRun 10).data.take demoTracker.maxRequestBodyBytes.toNat)), true)) ∧
    ((charRun 8).length ≤ demoTracker.maxResponseBodyBytes.toNat ∧
     trackerTruncResponseBody demoTracker (some (charRun 8)) = (some (charRun 8), false)) :=
  ⟨⟨by decide, C1_limits_captured_by_value.2.1 initialNetState 1 1 {} (by decide)⟩,
   ⟨by decide, C1_limits_captured_by_value.2.2.1 (attachPage initialNetState 1 1).2 1 1 {}
      (attachPage initialNetState 1 1).1 (by decide)⟩,
   ⟨by decide, C1_limits_captured_by_value.2.2.2.1 demoTracker (charRun 10) (by decide)⟩,
   ⟨by decide, C1_limits_captured_by_value.2.2.2.2 demoTracker (charRun 8) (by decide)⟩⟩


/-- C5 (counterexample): the record returned by the query copy shares its
`requestHeaders` reference with the stored record; writing a header through
the returned copy's reference changes what the stored record's (unchanged)
reference reads — a caller mutation on a returned result that alters
stored state. -/
theorem C5_counterexample :
    ((readRec (queryCopyStep demoWorld 0).2 (queryCopyStep demoWorld 0).1).requestHeadersRef
       = (readRec demoWorld 0).requestHeadersRef) ∧
    ((readRec (writeHdr (queryCopyStep demoWorld 0).2
        ((readRec (queryCopyStep demoWorld 0).2 (queryCopyStep demoWorld 0).1).requestHeadersRef.getD 99)
        [("accept", "evil")]) 0).requestHeadersRef = (readRec demoWorld 0).requestHeadersRef) ∧
    (readHdr (writeHdr (queryCopyStep demoWorld 0).2
        ((readRec (queryCopyStep demoWorld 0).2 (queryCopyStep demoWorld 0).1).requestHeadersRef.getD 99)
        [("accept", "evil")])
      ((readRec demoWorld 0).requestHeadersRef.getD 99) = [("accept", "evil")]) ∧
    ¬ (readHdr (writeHdr (queryCopyStep demoWorld 0).2
        ((readRec (queryCopyStep demoWorld 0).2 (queryCopyStep demoWorld 0).1).requestHeadersRef.getD 99)
        [("accept", "evil")])
      ((readRec demoWorld 0).requestHeadersRef.getD 99)
        = readHdr demoWorld ((readRec demoWorld 0).requestHeadersRef.getD 99)) := by
  decide

/-- C5 (amended): every record returned by the query is a fresh shallow
copy — a new record object whose top-level fields equal the stored
record's, so overwriting a top-level field of the copy leaves the stored
record unchanged — but the nested `requestHeaders`/`responseHeaders`/
`timing` references are shared with the stored record, so a write through a
shared nested reference is visible from the stored record, whose own
reference is untouched. -/
theorem getD_set_ne {α : Type} (l : List α) (i j : Nat) (v d : α) (h : i ≠ j) :
    (l.set i v).getD j d = l.getD j d := by
  simp [List.getD, List.getElem?_set_ne h]

theorem getD_set_self_of_lt {α : Type} (l : List α) (i : Nat) (v d : α) (h : i < l.length) :
    (l.set i v).getD i d = v := by
  simp [List.getD, List.getElem?_set_self, h]

/-- C5 (amended): every record returned by the query is a fresh shallow
copy — a new record object whose top-level fields equal the stored
record's, so overwriting a top-level field of the copy leaves the stored
record unchanged — but the nested `requestHeaders`/`responseHeaders`/
`timing` references are shared with the stored record, so a write through a
shared nested reference is visible from the stored record, whose own
reference is untouched. -/
theorem C5_shallow_copy_semantics (w : ObjWorld) (a : Nat) (ha : a < w.recCells.length)
    (u : String) (v : Headers) (hr : Nat) :
    (queryCopyStep w a).1 ≠ a ∧
    readRec (queryCopyStep w a).2 (queryCopyStep w a).1 = readRec w a ∧
    (readRec (queryCopyStep w a).2 (queryCopyStep w a).1).requestHeadersRef
      = (readRec w a).requestHeadersRef ∧
    readRec (writeRecUrl (queryCopyStep w a).2 (queryCopyStep w a).1 u) a = readRec w a ∧
    ((readRec w a).requestHeadersRef = some hr → hr < w.hdrCells.length →
      (readHdr (writeHdr (queryCopyStep w a).2 hr v) hr = v ∧
       readRec (writeHdr (queryCopyStep w a).2 hr v) a = readRec w a)) := by
  have hfst : (queryCopyStep w a).1 = w.recCells.length := rfl
  have hcells : (queryCopyStep w a).2.recCells = w.recCells ++ [readRec w a] := rfl
  have hread : readRec (queryCopyStep w a).2 (queryCopyStep w a).1 = readRec w a := by
    unfold readRec
    rw [hcells, hfst, List.getD_append_right _ _ _ _ (le_refl _)]
    simp [readRec, List.getD]
  refine ⟨by omega, hread, by rw [hread], ?_, ?_⟩
  · simp only [writeRecUrl, readRec]
    rw [hfst, getD_set_ne _ _ _ _ _ (by omega), hcells, List.getD_append _ _ _ _ ha]
  · intro hrefs hlt
    constructor
    · simp only [readHdr, writeHdr]
      have hh : (queryCopyStep w a).2.hdrCells = w.hdrCells := rfl
      rw [hh, getD_set_self_of_lt _ _ _ _ hlt]
    · simp only [readRec, writeHdr]
      rw [hcells, List.getD_append _ _ _ _ ha]

theorem C5_shallow_copy_semantics_witness :
    ((0:Nat) < demoWorld.recCells.length) ∧
    ((queryCopyStep demoWorld 0).1 ≠ 0 ∧
     readRec (queryCopyStep demoWorld 0).2 (queryCopyStep demoWorld 0).1 = readRec demoWorld 0 ∧
     (readRec (queryCopyStep demoWorld 0).2 (queryCopyStep demoWorld 0).1).requestHeadersRef
       = (readRec demoWorld 0).requestHeadersRef ∧
     readRec (writeRecUrl (queryCopyStep demoWorld 0).2 (queryCopyStep demoWorld 0).1 ("u2")) 0
       = readRec demoWorld 0 ∧
     ((readRec demoWorld 0).requestHeadersRef = some 0 → 0 < demoWorld.hdrCells.length →
       (readHdr (writeHdr (queryCopyStep demoWorld 0).2 0 [("accept", "evil")]) 0
          = [("accept", "evil")] ∧
        readRec (writeHdr (queryCopyStep demoWorld 0).2 0 [("accept", "evil")]) 0
          = readRec demoWorld 0))) :=
  ⟨by decide, C5_shallow_copy_semantics demoWorld 0 (by decide) ("u2") ([("accept", "evil")]) 0⟩

end NetMon
